import Mathlib

/-!
Verification of the mailing subsystem of the Anna-Maru/mailing_service
repository, shallowly embedded from `src/mailings/models.py`,
`src/mailings/views.py` and
`src/mailings/management/commands/send_mailings.py`.

Modelling conventions:
* datetimes are `Int` (only their total order and comparisons matter);
* the mail transport (`django.core.mail.send_mail` with
  `fail_silently=False`) is an injected function `Transport` returning
  `Except String Unit`: `.error d` models the raised exception `e` with
  `str(e) = d`, `.ok ()` models a successful send;
* persistence side effects are recorded as explicit `Effect` values
  (`save` with the list of fields written, `validate` for a model
  validation run), and the delivery paths record an event trace
  (`Ev.attempt` for each created `MailingAttempt` row, `Ev.recompute`
  for each call to `Mailing.update_status`).

A central fact about the source, which several definitions below must
reflect: in the class body of `Mailing` (models.py) the name
`is_active` is bound twice — first to a `BooleanField` (line 105), then
to the method `def is_active(self)` (line 154).  The Python class
namespace keeps only the last binding, so Django's metaclass never sees
the `BooleanField`: the model has no `is_active` field, and attribute
access `mailing.is_active` on an instance freshly loaded from the
database yields the bound method object, which is always truthy.  We
keep the declared field `is_active` in the `Mailing` record below as
ghost state (it is what the source declares at line 105 and what the
spec talks about), and model the attribute lookup the code actually
performs with `isActiveAttrTruthy`, which ignores that field.
-/

namespace Mailings

/-- Mailing status values (models.py lines 67-69):
Создана / Запущена / Завершена. -/
inductive MStatus where
  | created
  | started
  | completed
deriving DecidableEq, Repr

/-- MailingAttempt status values (models.py lines 168-169):
Успешно / Не успешно. -/
inductive AStatus where
  | success
  | failed
deriving DecidableEq, Repr

/-- Fields of the `Mailing` model that a `save` call can persist. -/
inductive Field where
  | start_time
  | end_time
  | status
  | message
  | recipients
  | owner
  | created_at
deriving DecidableEq, Repr

/-- A persistence side effect: a `save` with the list of fields written
(`save(update_fields=[...])` writes exactly those), or a model
validation run (`full_clean`). -/
inductive Effect where
  | save (fields : List Field)
  | validate
deriving DecidableEq, Repr

/-- A recipient (the `Client` model): only the email matters to the
delivery paths. -/
structure Client where
  email : String
deriving DecidableEq, Repr

/-- A `Message` template: subject and body. -/
structure Message where
  subject : String
  body : String
deriving DecidableEq, Repr

/-- The persisted `Mailing` row (models.py lines 64-118).
`is_active` is the `BooleanField` declared at line 105; as explained in
the file header it is shadowed by the method of the same name at line
154 and therefore dead at runtime — no code path below reads it. -/
structure Mailing where
  start_time : Int
  end_time : Int
  status : MStatus
  msg : Message
  recipients : List Client
  created_at : Int
  owner : Option Nat
  is_active : Bool
deriving DecidableEq, Repr

/-- A `Mailing` instance in memory: the row plus the Python instance
attribute `is_active`, present only if some code assigned it on this
object (`none` on a freshly loaded instance, since the model has no
such field). -/
structure MailingObj where
  row : Mailing
  instIsActive : Option Bool
deriving DecidableEq, Repr

/-- Loading a mailing from the database (`Mailing.objects.get`,
`get_object_or_404`): no instance attribute `is_active` exists. -/
def loadMailing (r : Mailing) : MailingObj :=
  { row := r, instIsActive := none }

/-- Python truthiness of the attribute access `mailing.is_active`: an
assigned instance attribute yields its boolean; otherwise the lookup
finds the bound method `Mailing.is_active` (models.py line 154), and a
bound method object is truthy. -/
def isActiveAttrTruthy (o : MailingObj) : Bool :=
  match o.instIsActive with
  | some b => b
  | none => true

/-- `Mailing.update_status` status computation (models.py lines
140-147): `now < start_time` gives Создана, `start_time <= now <=
end_time` gives Запущена, otherwise Завершена. -/
def computeStatus (m : Mailing) (now : Int) : MStatus :=
  if now < m.start_time then MStatus.created
  else if m.start_time ≤ now ∧ now ≤ m.end_time then MStatus.started
  else MStatus.completed

/-- `Mailing.update_status` (models.py lines 138-152): recompute the
status from `now`; if it differs from the stored one, assign it and
`save(update_fields=['status'])`; otherwise do nothing.  Returns the
resulting row and the persistence effects performed. -/
def update_status (m : Mailing) (now : Int) : Mailing × List Effect :=
  let new_status := computeStatus m now
  if m.status ≠ new_status then
    ({ m with status := new_status }, [Effect.save [Field.status]])
  else
    (m, [])

/-- `Mailing.can_send` (models.py lines 159-162):
`start_time <= now <= end_time`. -/
def can_send (m : Mailing) (now : Int) : Bool :=
  decide (m.start_time ≤ now ∧ now ≤ m.end_time)

/-- The field a `ValidationError` is tagged on, plus its message. -/
def errorField (r : Except (Field × String) Unit) : Option Field :=
  match r with
  | Except.error (f, _) => some f
  | Except.ok _ => none

/-- `Mailing.clean` (models.py lines 123-136).  The guard
`if self.start_time and self.end_time` skips every check when either
bound is `None` (a datetime object is always truthy).  With both bounds
present the checks run in sequence and the first violated one raises:
first `start_time >= end_time` (tagged on `end_time`), then — only for
a new object, `pk` unset — `start_time < now` (tagged on
`start_time`). -/
def clean (start_time end_time : Option Int) (pk : Option Nat) (now : Int) :
    Except (Field × String) Unit :=
  match start_time, end_time with
  | some s, some e =>
    if s ≥ e then
      Except.error (Field.end_time, "Дата окончания должна быть позже даты начала.")
    else if pk = none ∧ s < now then
      Except.error (Field.start_time, "Дата начала не может быть в прошлом.")
    else
      Except.ok ()
  | _, _ => Except.ok ()

/-- The injected mail transport: `.ok ()` is a successful
`send_mail`, `.error d` is a raised exception with `str(e) = d`. -/
def Transport : Type := Client → Except String Unit

/-- Whether the transport fails for a given recipient. -/
def sendFails (t : Transport) (c : Client) : Bool :=
  match t c with
  | Except.ok _ => false
  | Except.error _ => true

/-- One `MailingAttempt` row as the delivery loop creates it
(views.py lines 355-370, send_mailings.py lines 67-86). -/
structure Attempt where
  status : AStatus
  server_response : String
  recipient_email : String
deriving DecidableEq, Repr

/-- The attempt record created for one recipient: on success, status
Успешно with the fixed sentinel response; on a raised exception `e`,
status Не успешно with `str(e)`; both carry the recipient's email. -/
def attemptFor (t : Transport) (c : Client) : Attempt :=
  match t c with
  | Except.ok _ =>
    { status := AStatus.success
      server_response := "Письмо успешно отправлено"
      recipient_email := c.email }
  | Except.error e =>
    { status := AStatus.failed
      server_response := e
      recipient_email := c.email }

/-- The per-recipient delivery loop shared verbatim by views.py lines
339-371 and send_mailings.py lines 52-91: for each recipient, try the
transport, record one attempt, and bump the matching counter; an
exception for one recipient is swallowed into a Failed attempt and the
loop continues.  Returns the attempts in recipient order and the two
counters. -/
def deliveryLoop (t : Transport) : List Client → List Attempt × Nat × Nat
  | [] => ([], 0, 0)
  | c :: rest =>
    let a := attemptFor t c
    let (atts, s, f) := deliveryLoop t rest
    (a :: atts,
     (if a.status = AStatus.success then s + 1 else s),
     (if a.status = AStatus.failed then f + 1 else f))

/-- An observable event of a delivery path: one created
`MailingAttempt` row, or one call to `Mailing.update_status`. -/
inductive Ev where
  | attempt (a : Attempt)
  | recompute
deriving DecidableEq, Repr

/-- The attempts recorded in an event trace. -/
def attemptsIn (evs : List Ev) : List Attempt :=
  evs.filterMap fun e =>
    match e with
    | Ev.attempt a => some a
    | Ev.recompute => none

/-- Outcome of the manual web send path (views.py lines 305-389),
matching its four early returns and its final summary. -/
inductive SendResult where
  | accessDenied
  | inactiveRefused
  | windowRefused
  | noRecipients
  | done (success_count failed_count : Nat)
deriving DecidableEq, Repr

/-- Whether the outcome is surfaced through `messages.error` (a hard
refusal) in views.py; the empty-recipients outcome uses
`messages.warning` (line 336) and a completed batch uses
success/warning summaries. -/
def SendResult.isError : SendResult → Bool
  | SendResult.accessDenied => true
  | SendResult.inactiveRefused => true
  | SendResult.windowRefused => true
  | SendResult.noRecipients => false
  | SendResult.done _ _ => false

/-- Result and event trace of a delivery path invocation. -/
structure ExecOut where
  result : SendResult
  events : List Ev
deriving DecidableEq, Repr

/-- `send_mailing` (views.py lines 305-389), the manual web send.
`ownerOrViewAll` is the access check of line 311 (caller owns the
mailing or holds the view-all capability).  The guard of line 316,
`if not mailing.is_active:`, tests the truthiness of the attribute on
the freshly loaded instance — per `isActiveAttrTruthy` this is the
bound method and always truthy, so the branch is dead.  Then the
send-window check (line 324), the empty-recipients check (line 335),
the delivery loop, and exactly one `update_status` call after the loop
(line 374). -/
def send_mailing (ownerOrViewAll : Bool) (r : Mailing) (t : Transport)
    (now : Int) : ExecOut :=
  let obj := loadMailing r
  if ¬ ownerOrViewAll then
    { result := SendResult.accessDenied, events := [] }
  else if ¬ isActiveAttrTruthy obj then
    { result := SendResult.inactiveRefused, events := [] }
  else if ¬ can_send r now then
    { result := SendResult.windowRefused, events := [] }
  else if r.recipients.isEmpty then
    { result := SendResult.noRecipients, events := [] }
  else
    let (atts, s, f) := deliveryLoop t r.recipients
    { result := SendResult.done s f
      events := atts.map Ev.attempt ++ [Ev.recompute] }

/-- Outcome of the command-line send path
(send_mailings.py `Command.handle`). -/
inductive CmdResult where
  | notFound
  | windowRefused
  | noRecipients
  | done (success_count failed_count : Nat)
deriving DecidableEq, Repr

/-- Whether the outcome is written with `self.style.ERROR` in
send_mailings.py; the empty-recipients outcome uses WARNING
(line 43). -/
def CmdResult.isError : CmdResult → Bool
  | CmdResult.notFound => true
  | CmdResult.windowRefused => true
  | CmdResult.noRecipients => false
  | CmdResult.done _ _ => false

/-- Result and event trace of a command invocation. -/
structure CmdOut where
  result : CmdResult
  events : List Ev
deriving DecidableEq, Repr

/-- `Command.handle` (send_mailings.py lines 17-108): load the mailing
by id (DoesNotExist refused), check `can_send`, check for recipients,
then run the same delivery loop and one `update_status` call after it.
Note that, unlike the web path, it contains no activity guard of any
kind. -/
def command_handle (db : Nat → Option Mailing) (mailing_id : Nat)
    (t : Transport) (now : Int) : CmdOut :=
  match db mailing_id with
  | none => { result := CmdResult.notFound, events := [] }
  | some m =>
    if ¬ can_send m now then
      { result := CmdResult.windowRefused, events := [] }
    else if m.recipients.isEmpty then
      { result := CmdResult.noRecipients, events := [] }
    else
      let (atts, s, f) := deliveryLoop t m.recipients
      { result := CmdResult.done s f
        events := atts.map Ev.attempt ++ [Ev.recompute] }

/-- `toggle_mailing_active` (views.py lines 392-406): refused without
the manage-users capability; otherwise the freshly loaded instance gets
`mailing.is_active = not mailing.is_active` — the attribute read finds
the truthy bound method, so the assignment always stores `False` as an
instance attribute — and `mailing.save()` persists only model fields,
among which `is_active` is not (the field is shadowed), so the stored
row is written back unchanged.  Returns the in-memory object and the
row as persisted. -/
def toggle_mailing_active (canManageUsers : Bool) (r : Mailing) :
    Option (MailingObj × Mailing) :=
  if ¬ canManageUsers then none
  else
    let obj := loadMailing r
    let obj2 := { obj with instIsActive := some (!isActiveAttrTruthy obj) }
    some (obj2, obj2.row)

/-- A fixed message template for concrete instances. -/
def msg0 : Message :=
  { subject := "Тема", body := "Текст" }

/-- Concrete mailing rows for counterexamples and witnesses. -/
def mkMailing (s e : Int) (st : MStatus) (rs : List Client) (act : Bool) :
    Mailing :=
  { start_time := s, end_time := e, status := st, msg := msg0,
    recipients := rs, created_at := 0, owner := none, is_active := act }

/-- Concrete recipients for witnesses and counterexamples. -/
def clientA : Client := { email := "a@x.com" }

/-- Second concrete recipient. -/
def clientB : Client := { email := "b@x.com" }

/-- Concrete mailing: window [-10, 10], two recipients. -/
def rowAB : Mailing :=
  mkMailing (-10) 10 MStatus.created [clientA, clientB] true

/-- Concrete transport: fails for b@x.com with diagnostic
"mailbox full", succeeds otherwise. -/
def tAB : Transport := fun c =>
  if c.email = "b@x.com" then Except.error "mailbox full" else Except.ok ()

/-- Concrete transport that always succeeds. -/
def tOk : Transport := fun _ => Except.ok ()

/-- Concrete mailing whose declared is_active field is false, inside its
send window, with one recipient. -/
def rowInactive : Mailing :=
  mkMailing 0 10 MStatus.started [clientA] false

/-- Concrete mailing with no recipients, inside its send window. -/
def rowEmpty : Mailing :=
  mkMailing 0 10 MStatus.created [] true

/-- Concrete one-row database mapping id 1 to rowInactive. -/
def db6 : Nat → Option Mailing := fun i =>
  if i = 1 then some rowInactive else none

/-- The status field does not influence the recomputed status. -/
theorem computeStatus_status_irrel (m : Mailing) (st : MStatus) (now : Int) :
    computeStatus { m with status := st } now = computeStatus m now := rfl

/-- C2 (counterexample): on the ill-formed row with start_time = 5,
end_time = 1, at now = 3 we have now > end_time, yet update_status
computes Создана (now < start_time wins), so "Completed iff
now > end_time" fails as stated for arbitrary rows. -/
theorem update_status_window_cex :
    ¬ (computeStatus (mkMailing 5 1 MStatus.created [] true) 3 =
        MStatus.completed ↔ (1 : Int) < 3) := by
  decide

/-- C2 (amended: restricted to rows with start_time ≤ end_time): the
recomputed status is Создана iff now < start_time, Запущена iff
start_time ≤ now ≤ end_time (both bounds inclusive), and Завершена iff
now > end_time. -/
theorem update_status_window (m : Mailing) (now : Int)
    (hse : m.start_time ≤ m.end_time) :
    (computeStatus m now = MStatus.created ↔ now < m.start_time) ∧
    (computeStatus m now = MStatus.started ↔
      (m.start_time ≤ now ∧ now ≤ m.end_time)) ∧
    (computeStatus m now = MStatus.completed ↔ m.end_time < now) := by
  unfold computeStatus
  split_ifs with h1 h2 <;> refine ⟨?_, ?_, ?_⟩ <;> simp_all
  all_goals omega

/-- Witness for update_status_window at start_time = 0, end_time = 10,
now = 5. -/
theorem update_status_window_witness :
    (mkMailing 0 10 MStatus.created [] true).start_time ≤
      (mkMailing 0 10 MStatus.created [] true).end_time ∧
    ((computeStatus (mkMailing 0 10 MStatus.created [] true) 5 =
        MStatus.created ↔
        (5 : Int) < (mkMailing 0 10 MStatus.created [] true).start_time) ∧
     (computeStatus (mkMailing 0 10 MStatus.created [] true) 5 =
        MStatus.started ↔
        ((mkMailing 0 10 MStatus.created [] true).start_time ≤ (5 : Int) ∧
         (5 : Int) ≤ (mkMailing 0 10 MStatus.created [] true).end_time)) ∧
     (computeStatus (mkMailing 0 10 MStatus.created [] true) 5 =
        MStatus.completed ↔
        (mkMailing 0 10 MStatus.created [] true).end_time < (5 : Int))) :=
  ⟨by decide, update_status_window (mkMailing 0 10 MStatus.created [] true) 5
    (by decide)⟩

/-- C3: can_send is true exactly on [start_time, end_time] inclusive,
and is independent of the stored status (in particular a stale
Завершена) and of the is_active field: rewriting both leaves its value
unchanged. -/
theorem can_send_window_independent (m : Mailing) (now : Int)
    (st : MStatus) (b : Bool) :
    (can_send m now = true ↔ (m.start_time ≤ now ∧ now ≤ m.end_time)) ∧
    can_send { m with status := st, is_active := b } now = can_send m now := by
  exact ⟨by simp [can_send], rfl⟩

/-- C9: update_status persists nothing when the recomputed status equals
the stored one and otherwise writes exactly the status field; every
other field of the row is left unchanged; no validation effect is ever
performed; and a second call at the same now is a no-op on the result
of the first. -/
theorem update_status_frame_idempotent (m : Mailing) (now : Int) :
    (update_status m now =
      if computeStatus m now = m.status then (m, [])
      else ({ m with status := computeStatus m now },
            [Effect.save [Field.status]])) ∧
    ((update_status m now).1.start_time = m.start_time ∧
     (update_status m now).1.end_time = m.end_time ∧
     (update_status m now).1.msg = m.msg ∧
     (update_status m now).1.recipients = m.recipients ∧
     (update_status m now).1.owner = m.owner ∧
     (update_status m now).1.created_at = m.created_at ∧
     (update_status m now).1.is_active = m.is_active) ∧
    Effect.validate ∉ (update_status m now).2 ∧
    update_status (update_status m now).1 now =
      ((update_status m now).1, []) := by
  by_cases h : computeStatus m now = m.status
  · simp [update_status, h]
  · have h2 : m.status ≠ computeStatus m now := fun hc => h hc.symm
    simp [update_status, h, h2, computeStatus_status_irrel]

/-- C10: model validation with a missing bound performs no checks at
all: whenever start_time or end_time is None, clean succeeds vacuously,
for every pk and every current time. -/
theorem clean_vacuous_missing_bound (s e : Option Int) (pk : Option Nat)
    (now : Int) :
    clean none e pk now = Except.ok () ∧
    clean s none pk now = Except.ok () := by
  constructor
  · cases e <;> rfl
  · cases s <;> rfl

/-- C7 (counterexample): on a new mailing (pk unset) with start_time =
5, end_time = 1, validated at now = 10, both violations hold
(start ≥ end, and start in the past for a new object), yet clean
reports only the end_time error — no start_time-tagged failure occurs,
refuting both the start_time iff and the simultaneous reporting. -/
theorem clean_first_violation_only_cex :
    ((none : Option Nat) = none) ∧ ((5 : Int) < 10) ∧
    errorField (clean (some 5) (some 1) none 10) ≠ some Field.start_time ∧
    errorField (clean (some 5) (some 1) none 10) = some Field.end_time := by
  decide

/-- C7 (amended): with both bounds present, clean fails tagged on
end_time iff start_time ≥ end_time, and fails tagged on start_time iff
start_time < end_time AND the object is new AND start_time is in the
past — the checks run in sequence, the ordering check first, so when
both violations hold only the end_time error is reported. -/
theorem clean_sequential_checks (s e : Int) (pk : Option Nat) (now : Int) :
    (errorField (clean (some s) (some e) pk now) = some Field.end_time ↔
      e ≤ s) ∧
    (errorField (clean (some s) (some e) pk now) = some Field.start_time ↔
      (s < e ∧ pk = none ∧ s < now)) := by
  unfold clean errorField
  dsimp only
  split_ifs with h1 h2 <;> simp_all

/-- An attempt records Успешно exactly when the transport did not
fail. -/
theorem attemptFor_success_iff (t : Transport) (c : Client) :
    (attemptFor t c).status = AStatus.success ↔ sendFails t c = false := by
  unfold attemptFor sendFails
  cases t c <;> simp

/-- An attempt records Не успешно exactly when the transport failed. -/
theorem attemptFor_failed_iff (t : Transport) (c : Client) :
    (attemptFor t c).status = AStatus.failed ↔ sendFails t c = true := by
  unfold attemptFor sendFails
  cases t c <;> simp

/-- Closed form of the delivery loop: one attempt per recipient in
order, the success counter counting the non-failing recipients and the
failure counter the failing ones. -/
theorem deliveryLoop_eq (t : Transport) (l : List Client) :
    deliveryLoop t l =
      (l.map (attemptFor t),
       l.countP (fun c => !sendFails t c),
       l.countP (sendFails t)) := by
  induction l with
  | nil => rfl
  | cons c rest ih =>
    unfold deliveryLoop
    rw [ih]
    rcases h : sendFails t c with _ | _ <;>
      simp [List.countP_cons, h, attemptFor_success_iff t c,
        attemptFor_failed_iff t c]

/-- Counting the recipients the transport does not fail for is the
complement of counting the failing ones. -/
theorem countP_not_fails (t : Transport) (l : List Client) :
    l.countP (fun c => !sendFails t c) =
      l.length - l.countP (sendFails t) := by
  have hlen := List.length_eq_countP_add_countP (sendFails t) l
  have hc : l.countP (fun c => decide ¬ sendFails t c = true) =
      l.countP (fun c => !sendFails t c) := by
    refine List.countP_congr fun x _ => ?_
    cases sendFails t x <;> simp
  omega

/-- The attempts recorded in a batch trace are exactly the batch. -/
theorem attemptsIn_batch (xs : List Attempt) :
    attemptsIn (xs.map Ev.attempt ++ [Ev.recompute]) = xs := by
  induction xs with
  | nil => rfl
  | cons a rest ih => simpa [attemptsIn] using ih

/-- C1: past the guards (in the send window, at least one recipient),
the web send path records one attempt per recipient carrying that
recipient's email — Успешно with the fixed sentinel where the transport
succeeds, Не успешно with the transport's diagnostic where it fails —
so with N recipients and K transport failures there are exactly N
attempts, K failed and N−K successful; the reported summary is
done (N−K) K; and the whole trace is the batch followed by exactly one
status recomputation. -/
theorem execute_partial_failure (t : Transport) (r : Mailing) (now : Int)
    (hwin : can_send r now = true) (hne : r.recipients ≠ []) :
    attemptsIn (send_mailing true r t now).events =
      r.recipients.map (fun c =>
        match t c with
        | Except.ok _ =>
          { status := AStatus.success
            server_response := "Письмо успешно отправлено"
            recipient_email := c.email }
        | Except.error d =>
          { status := AStatus.failed
            server_response := d
            recipient_email := c.email }) ∧
    (attemptsIn (send_mailing true r t now).events).length =
      r.recipients.length ∧
    (attemptsIn (send_mailing true r t now).events).countP
        (fun a => decide (a.status = AStatus.failed)) =
      r.recipients.countP (sendFails t) ∧
    (attemptsIn (send_mailing true r t now).events).countP
        (fun a => decide (a.status = AStatus.success)) =
      r.recipients.length - r.recipients.countP (sendFails t) ∧
    (send_mailing true r t now).result =
      SendResult.done
        (r.recipients.length - r.recipients.countP (sendFails t))
        (r.recipients.countP (sendFails t)) ∧
    (send_mailing true r t now).events =
      (attemptsIn (send_mailing true r t now).events).map Ev.attempt ++
        [Ev.recompute] ∧
    (send_mailing true r t now).events.countP
        (fun e => decide (e = Ev.recompute)) = 1 := by
  have hsend : send_mailing true r t now =
      { result := SendResult.done
          (r.recipients.length - r.recipients.countP (sendFails t))
          (r.recipients.countP (sendFails t))
        events := (r.recipients.map (attemptFor t)).map Ev.attempt ++
          [Ev.recompute] } := by
    unfold send_mailing
    rw [deliveryLoop_eq, countP_not_fails]
    simp [loadMailing, isActiveAttrTruthy, hwin,
      List.isEmpty_eq_false.mpr hne]
  have hatts : attemptsIn (send_mailing true r t now).events =
      r.recipients.map (attemptFor t) := by
    rw [hsend]
    exact attemptsIn_batch (r.recipients.map (attemptFor t))
  refine ⟨hatts, ?_, ?_, ?_, ?_, ?_, ?_⟩
  · rw [hatts, List.length_map]
  · rw [hatts, List.countP_map]
    refine List.countP_congr fun c _ => ?_
    simp [Function.comp, attemptFor_failed_iff t c]
  · rw [hatts, List.countP_map, ← countP_not_fails]
    refine List.countP_congr fun c _ => ?_
    simp [Function.comp, attemptFor_success_iff t c]
  · rw [hsend]
  · rw [hatts, hsend]
  · rw [hsend]
    simp [List.countP_append, List.countP_map, Function.comp,
      List.countP_cons]

/-- Witness for execute_partial_failure: window [-10, 10] at now = 0,
recipients a@x.com and b@x.com, transport failing for b@x.com with
"mailbox full": two attempts, summary done 1 1. -/
theorem execute_partial_failure_witness :
    can_send rowAB 0 = true ∧ rowAB.recipients ≠ [] ∧
    attemptsIn (send_mailing true rowAB tAB 0).events =
      [{ status := AStatus.success
         server_response := "Письмо успешно отправлено"
         recipient_email := "a@x.com" },
       { status := AStatus.failed
         server_response := "mailbox full"
         recipient_email := "b@x.com" }] ∧
    (send_mailing true rowAB tAB 0).result = SendResult.done 1 1 := by
  have h := execute_partial_failure tAB rowAB 0 (by decide)
    (by decide)
  exact ⟨by decide, by decide, by rw [h.1]; decide, h.2.2.2.2.1⟩

/-- C4: the code bug at the failing input — a mailing whose declared
is_active field is false, in its window, with one recipient: the web
send path does not refuse it; it runs the batch and records an attempt,
because the attribute `mailing.is_active` read by the guard is the
truthy bound method (the field of that name is shadowed), never the
flag. -/
theorem send_inactive_not_refused :
    rowInactive.is_active = false ∧
    isActiveAttrTruthy (loadMailing rowInactive) = true ∧
    (send_mailing true rowInactive tOk 5).result = SendResult.done 1 0 ∧
    attemptsIn (send_mailing true rowInactive tOk 5).events ≠ [] := by
  decide

/-- C5: the code bug in the toggle — for every mailing row, the manager
toggle assigns the in-memory instance attribute is_active := false
(negating the truthy bound method, so it can never produce true, even
to re-activate), and the row it persists is exactly the input row: no
is_active value is ever stored, since the model has no such field.
Without the manage-users capability the toggle is refused. -/
theorem toggle_cannot_activate_or_persist (r : Mailing) :
    toggle_mailing_active true r =
      some ({ row := r, instIsActive := some false }, r) ∧
    toggle_mailing_active false r = none := by
  exact ⟨rfl, rfl⟩

/-- C6 (counterexample): on a mailing whose declared is_active field is
false, in its window, with one recipient, the command-line path
proceeds to send and records an attempt — it applies no is_active
precondition at all, so it does not apply "exactly the same
preconditions" the claim lists. -/
theorem command_sends_inactive_cex :
    rowInactive.is_active = false ∧ can_send rowInactive 5 = true ∧
    rowInactive.recipients ≠ [] ∧
    (command_handle db6 1 tOk 5).result = CmdResult.done 1 0 ∧
    attemptsIn (command_handle db6 1 tOk 5).events ≠ [] := by
  decide

/-- C6 (amended): the command applies the existence, send-window and
non-empty-recipients preconditions, each refusal creating no attempt;
its outcome is entirely independent of the is_active field; and its
event trace coincides with the access-granted web path's trace on every
input (the two paths enforce the same effective preconditions and run
the same batch). -/
theorem command_preconditions (m : Mailing) (t : Transport) (now : Int)
    (i : Nat) (b : Bool) :
    command_handle (fun _ => none) i t now =
      { result := CmdResult.notFound, events := [] } ∧
    ((command_handle (fun _ => some m) i t now).result =
        CmdResult.windowRefused ↔ can_send m now = false) ∧
    ((command_handle (fun _ => some m) i t now).result =
        CmdResult.noRecipients ↔
      (can_send m now = true ∧ m.recipients = [])) ∧
    ((command_handle (fun _ => some m) i t now).events = [] ↔
      (can_send m now = false ∨ m.recipients = [])) ∧
    command_handle (fun _ => some { m with is_active := b }) i t now =
      command_handle (fun _ => some m) i t now ∧
    (command_handle (fun _ => some m) i t now).events =
      (send_mailing true m t now).events := by
  refine ⟨rfl, ?_, ?_, ?_, rfl, ?_⟩ <;>
    · simp only [command_handle, send_mailing]
      rcases hw : can_send m now with _ | _ <;>
        rcases he : m.recipients with _ | ⟨c, rest⟩ <;>
          simp [hw, he, loadMailing, isActiveAttrTruthy]

/-- C8: past the earlier guards, a mailing with an empty recipient set
produces no attempt on either path; both report the distinct
no-recipients outcome, which is not a hard error (warning styling on
both paths). -/
theorem execute_empty_recipients (m : Mailing) (t : Transport)
    (now : Int) (i : Nat) (hwin : can_send m now = true)
    (hemp : m.recipients = []) :
    send_mailing true m t now =
      { result := SendResult.noRecipients, events := [] } ∧
    SendResult.isError SendResult.noRecipients = false ∧
    command_handle (fun _ => some m) i t now =
      { result := CmdResult.noRecipients, events := [] } ∧
    CmdResult.isError CmdResult.noRecipients = false := by
  unfold send_mailing command_handle
  simp [loadMailing, isActiveAttrTruthy, hwin, hemp, SendResult.isError,
    CmdResult.isError]

/-- Witness for execute_empty_recipients: window [0, 10] at now = 5,
no recipients. -/
theorem execute_empty_recipients_witness :
    can_send rowEmpty 5 = true ∧ rowEmpty.recipients = [] ∧
    (send_mailing true rowEmpty tOk 5 =
      { result := SendResult.noRecipients, events := [] } ∧
    SendResult.isError SendResult.noRecipients = false ∧
    command_handle (fun _ => some rowEmpty) 0 tOk 5 =
      { result := CmdResult.noRecipients, events := [] } ∧
    CmdResult.isError CmdResult.noRecipients = false) :=
  ⟨by decide, rfl,
    execute_empty_recipients rowEmpty tOk 5 0 (by decide) rfl⟩

end Mailings
